import Mathlib

/-!
Shallow embedding of the resilience/orchestration core of the naver-scraper-api
repository: the retry orchestrator (`withRetry`), the retryable-status
classifier (`shouldRetry`), backoff and sleep jitter (`calculateBackoffDelay`,
`sleep`), the `CircuitBreaker` state machine, the `MetricsCollector`, and the
breaker/retry/metrics composition inside `fetchPagedCompositeCards`.

Conventions of the embedding:
- JavaScript numbers are modelled as `ℚ` (exact rationals); `Math.random()`
  values become explicit parameters `r` with `0 ≤ r` and `r ≤ 1`.
- A thrown JS error is `Except.error`; the only error attribute the retry
  module inspects is `error.status`, modelled as `Option ℕ` (absent field is
  `none`; JS truthiness makes a `0` status behave like an absent one).
- Timestamps (`Date.now()`) are `ℤ` milliseconds passed in explicitly.
- Side-effecting methods become state-passing functions; a wrapped async
  operation becomes its outcome value, and functions return how many times the
  operation was invoked so that fail-fast behaviour is observable.
-/

/-- An error value as seen by the retry module: only the optional numeric
`status` attribute is relevant to control flow. -/
structure RetryError where
  status : Option Nat
deriving DecidableEq, Repr

/-- The hard-coded list of retryable HTTP statuses in `shouldRetry`
(`[429, 500, 502, 503, 504, 520, 521, 522, 524]`). -/
def retryableStatuses : List Nat := [429, 500, 502, 503, 504, 520, 521, 522, 524]

/-- Embedding of `shouldRetry(status, attempt, maxRetries)`: returns `false`
once `attempt >= maxRetries`, otherwise tests membership in
`retryableStatuses`. -/
def shouldRetry (status attempt maxRetries : Nat) : Bool :=
  if maxRetries ≤ attempt then false
  else retryableStatuses.contains status

/-- The default retry decision inside `withRetry`:
`error.status ? shouldRetry(error.status, attempt, maxRetries) : true`.
JS truthiness means a missing status, and also a `0` status, take the `true`
branch. -/
def defaultRetryDecision (maxRetries : Nat) (e : RetryError) (attempt : Nat) : Bool :=
  match e.status with
  | some s => if s = 0 then true else shouldRetry s attempt maxRetries
  | none => true

/-- Loop body of `withRetry`: `attempt` is the current zero-based attempt
index and `left` is the number of loop iterations still available after this
one (so `left = maxRetries - attempt`; `left = 0` means
`attempt === maxRetries`, where the source breaks after recording the error).
Returns the propagated outcome together with the number of invocations of the
operation performed from this attempt on. -/
def withRetryGo {α : Type} (op : Nat → Except RetryError α)
    (dec : RetryError → Nat → Bool) : Nat → Nat → Except RetryError α × Nat
  | attempt, 0 =>
    match op attempt with
    | .ok a => (.ok a, 1)
    | .error e => (.error e, 1)
  | attempt, left + 1 =>
    match op attempt with
    | .ok a => (.ok a, 1)
    | .error e =>
      if dec e attempt then
        let r := withRetryGo op dec (attempt + 1) left
        (r.1, r.2 + 1)
      else (.error e, 1)

/-- Embedding of `withRetry(operation, { maxRetries, shouldRetryFn, ... })`:
the operation's outcome on its `i`-th invocation is `op i`; `dec` is the
effective retry decision (the caller-supplied `shouldRetryFn` if provided,
otherwise `defaultRetryDecision maxRetries`). Backoff sleeping and the
`onRetry` notification have no effect on the outcome or the invocation count
and are modelled separately (`calculateBackoffDelay`, `sleep`). Returns the
final outcome and the total number of invocations. -/
def withRetry {α : Type} (op : Nat → Except RetryError α) (maxRetries : Nat)
    (dec : RetryError → Nat → Bool) : Except RetryError α × Nat :=
  withRetryGo op dec 0 maxRetries

theorem withRetryGo_all_retryable {α : Type} (errf : Nat → RetryError)
    (dec : RetryError → Nat → Bool) :
    ∀ (left attempt : Nat),
      (∀ j, j < left → dec (errf (attempt + j)) (attempt + j) = true) →
      withRetryGo (fun i => (Except.error (errf i) : Except RetryError α)) dec attempt left
        = (Except.error (errf (attempt + left)), left + 1) := by
  intro left
  induction left with
  | zero => intro attempt _; simp [withRetryGo]
  | succ n ih =>
    intro attempt h
    have h0 : dec (errf attempt) attempt = true := by
      have := h 0 (Nat.succ_pos n); simpa using this
    have ihx := ih (attempt + 1) (fun j hj => by
      have := h (j + 1) (by omega)
      have e : attempt + (j + 1) = attempt + 1 + j := by omega
      rwa [e] at this)
    have e2 : attempt + 1 + n = attempt + (n + 1) := by omega
    simp [withRetryGo, h0, ihx, e2]

/-- C1. For every retry policy with `maxAttempts = k` (`k ≥ 1`, i.e. source
parameter `maxRetries = k - 1`) and every operation that fails with a
retryable failure on every invocation, `withRetry` invokes the operation
exactly `k` times and propagates the error thrown by the `k`-th invocation
(zero-based index `k - 1`); with `maxAttempts = 1` the hypothesis on the
retry classification is vacuous, so the operation runs exactly once with no
retry regardless of classification. -/
theorem withRetry_exhausts_all_attempts (k : Nat) (hk : 1 ≤ k)
    (errf : Nat → RetryError) (dec : RetryError → Nat → Bool)
    (hdec : ∀ i, i + 1 < k → dec (errf i) i = true) :
    withRetry (fun i => (Except.error (errf i) : Except RetryError Unit)) (k - 1) dec
      = (Except.error (errf (k - 1)), k) := by
  obtain ⟨m, rfl⟩ : ∃ m, k = m + 1 := ⟨k - 1, (Nat.succ_pred_eq_of_pos hk).symm⟩
  have h := withRetryGo_all_retryable (α := Unit) errf dec m 0 (fun j hj => by
    have := hdec j (by omega)
    simpa using this)
  simpa [withRetry] using h

/-- Witness for C1: `maxAttempts = 3` (`maxRetries = 2`) with every invocation
failing with HTTP status 500 under the default classification: exactly 3
invocations and the third error propagates. -/
theorem withRetry_exhausts_all_attempts_witness :
    withRetry (fun _ => (Except.error ⟨some 500⟩ : Except RetryError Unit)) 2
      (defaultRetryDecision 2) = (Except.error ⟨some 500⟩, 3) :=
  withRetry_exhausts_all_attempts 3 (by decide) (fun _ => ⟨some 500⟩)
    (defaultRetryDecision 2) (fun i hi => by
      have h2 : i < 2 := by omega
      interval_cases i <;> decide)

theorem withRetryGo_stops_at_nonretryable {α : Type} (op : Nat → Except RetryError α)
    (errf : Nat → RetryError) (dec : RetryError → Nat → Bool) :
    ∀ (i attempt left : Nat), i < left →
      (∀ j, j ≤ i → op (attempt + j) = Except.error (errf (attempt + j))) →
      (∀ j, j < i → dec (errf (attempt + j)) (attempt + j) = true) →
      dec (errf (attempt + i)) (attempt + i) = false →
      withRetryGo op dec attempt left = (Except.error (errf (attempt + i)), i + 1) := by
  intro i
  induction i with
  | zero =>
    intro attempt left hlt hfail _ hstop
    obtain ⟨l, rfl⟩ : ∃ l, left = l + 1 := ⟨left - 1, by omega⟩
    have hf := hfail 0 (Nat.le_refl 0)
    simp only [Nat.add_zero] at hf hstop
    simp [withRetryGo, hf, hstop]
  | succ n ih =>
    intro attempt left hlt hfail hpre hstop
    obtain ⟨l, rfl⟩ : ∃ l, left = l + 1 := ⟨left - 1, by omega⟩
    have hf := hfail 0 (Nat.zero_le _)
    simp only [Nat.add_zero] at hf
    have h0 : dec (errf attempt) attempt = true := by
      have := hpre 0 (Nat.succ_pos n); simpa using this
    have ihx := ih (attempt + 1) l (by omega)
      (fun j hj => by
        have := hfail (j + 1) (by omega)
        have e : attempt + (j + 1) = attempt + 1 + j := by omega
        rwa [e] at this)
      (fun j hj => by
        have := hpre (j + 1) (by omega)
        have e : attempt + (j + 1) = attempt + 1 + j := by omega
        rwa [e] at this)
      (by
        have e : attempt + (n + 1) = attempt + 1 + n := by omega
        rwa [e] at hstop)
    have e2 : attempt + 1 + n = attempt + (n + 1) := by omega
    simp [withRetryGo, hf, h0, ihx, e2]

/-- C6. If an operation fails on every attempt up to zero-based index `i`,
the failures before `i` are classified retryable, and the failure at `i` is
classified non-retryable with `i < maxAttempts - 1` (`maxAttempts = m + 1`,
source `maxRetries = m`), then `withRetry` stops immediately, propagating the
`i`-th error after exactly `i + 1` invocations; moreover the default
classification retries exactly the failures carrying an HTTP status in
`{429, 500, 502, 503, 504, 520, 521, 522, 524}` and the transport-level
failures carrying no status. -/
theorem withRetry_stops_on_nonretryable (m i : Nat)
    (op : Nat → Except RetryError Unit) (errf : Nat → RetryError)
    (dec : RetryError → Nat → Bool) (hi : i < m)
    (hfail : ∀ j, j ≤ i → op j = Except.error (errf j))
    (hpre : ∀ j, j < i → dec (errf j) j = true)
    (hstop : dec (errf i) i = false) :
    withRetry op m dec = (Except.error (errf i), i + 1) ∧
    (∀ s a, a < m → s ∈ retryableStatuses →
      defaultRetryDecision m ⟨some s⟩ a = true) ∧
    (∀ s a, s ∉ retryableStatuses → 0 < s →
      defaultRetryDecision m ⟨some s⟩ a = false) ∧
    (∀ a, defaultRetryDecision m ⟨none⟩ a = true) := by
  refine ⟨?_, ?_, ?_, ?_⟩
  · have h := withRetryGo_stops_at_nonretryable op errf dec i 0 m hi
      (fun j hj => by simpa using hfail j hj)
      (fun j hj => by simpa using hpre j hj)
      (by simpa using hstop)
    simpa [withRetry] using h
  · intro s a ha hs
    have hs0 : s ≠ 0 := by
      intro h; subst h; simp [retryableStatuses] at hs
    simp [defaultRetryDecision, shouldRetry, Nat.not_le.mpr ha, hs0, hs]
  · intro s a hs hpos
    have hne : s ≠ 0 := by omega
    by_cases hma : m ≤ a <;>
      simp [defaultRetryDecision, shouldRetry, hma, hne, hs]
  · intro a
    simp [defaultRetryDecision]

/-- Witness for C6: `maxRetries = 3` (`maxAttempts = 4`), attempt 0 fails with
status 500 (retryable), attempt 1 fails with status 404 (non-retryable under
the default classification): exactly 2 invocations, the 404 error propagates;
plus concrete evaluations of the default classifier. -/
theorem withRetry_stops_on_nonretryable_witness :
    withRetry (fun j => (Except.error ⟨some (if j = 0 then 500 else 404)⟩ :
        Except RetryError Unit)) 3 (defaultRetryDecision 3)
      = (Except.error ⟨some 404⟩, 2) ∧
    defaultRetryDecision 3 ⟨some 429⟩ 0 = true ∧
    defaultRetryDecision 3 ⟨some 404⟩ 1 = false ∧
    defaultRetryDecision 3 ⟨none⟩ 0 = true := by
  have h := withRetry_stops_on_nonretryable 3 1
    (fun j => (Except.error ⟨some (if j = 0 then 500 else 404)⟩ :
      Except RetryError Unit))
    (fun j => ⟨some (if j = 0 then 500 else 404)⟩)
    (defaultRetryDecision 3) (by decide)
    (fun j hj => rfl)
    (fun j hj => by interval_cases j; decide)
    (by decide)
  exact ⟨h.1, h.2.1 429 0 (by decide) (by decide),
    h.2.2.1 404 1 (by decide) (by decide), h.2.2.2 0⟩


/-- The three states of the `CircuitBreaker` class. -/
inductive BreakerState where
  | CLOSED
  | OPEN
  | HALF_OPEN
deriving DecidableEq, Repr

/-- State of the `CircuitBreaker` class from the retry module: private fields
`failures`, `successes`, `lastFailureTime` and `state`, plus the constructor
parameters `threshold` (error-rate percentage) and `timeout` (reset timeout in
milliseconds, default 60000). -/
structure CircuitBreaker where
  failures : Nat
  successes : Nat
  lastFailureTime : Int
  state : BreakerState
  threshold : ℚ
  timeout : Int
deriving DecidableEq, Repr

/-- Embedding of `CircuitBreaker.onSuccess`: increment `successes`; if the
state is HALF_OPEN, go to CLOSED and zero only the `failures` counter. -/
def CircuitBreaker.onSuccess (b : CircuitBreaker) : CircuitBreaker :=
  let b1 := { b with successes := b.successes + 1 }
  if b1.state = BreakerState.HALF_OPEN then
    { b1 with state := BreakerState.CLOSED, failures := 0 }
  else b1

/-- Embedding of `CircuitBreaker.onFailure`: increment `failures`, record
`lastFailureTime = now`, and open the breaker when the error rate
`(failures / (failures + successes)) * 100` strictly exceeds `threshold`
while at least 10 requests have been observed. -/
def CircuitBreaker.onFailure (now : Int) (b : CircuitBreaker) : CircuitBreaker :=
  let b1 := { b with failures := b.failures + 1, lastFailureTime := now }
  let total : Nat := b1.failures + b1.successes
  let errorRate : ℚ := if 0 < total then ((b1.failures : ℚ) / (total : ℚ)) * 100 else 0
  if b1.threshold < errorRate ∧ 10 ≤ total then
    { b1 with state := BreakerState.OPEN }
  else b1

/-- The admission decision at the top of `CircuitBreaker.execute`: `none`
means the call is rejected with the breaker-open error before the wrapped
operation is invoked; `some b1` is the breaker state in which the operation
then runs (HALF_OPEN when an OPEN breaker's reset timeout has strictly
elapsed, the unchanged state otherwise). -/
def CircuitBreaker.gate (now : Int) (b : CircuitBreaker) : Option CircuitBreaker :=
  if b.state = BreakerState.OPEN then
    if b.timeout < now - b.lastFailureTime then
      some { b with state := BreakerState.HALF_OPEN }
    else none
  else some b

/-- Outcome of one `CircuitBreaker.execute` call: the operation's value, the
operation's error, or the breaker-open rejection. -/
inductive ExecOutcome (ε α : Type) where
  | ok (a : α)
  | err (e : ε)
  | circuitOpen
deriving DecidableEq, Repr

/-- Embedding of `CircuitBreaker.execute(operation)` for one call: `op` is the
outcome the wrapped operation would produce, and the returned `Nat` counts how
many times the operation was invoked (0 on a breaker-open rejection, 1
otherwise). -/
def CircuitBreaker.execute {ε α : Type} (now : Int) (op : Except ε α)
    (b : CircuitBreaker) : ExecOutcome ε α × CircuitBreaker × Nat :=
  match CircuitBreaker.gate now b with
  | none => (ExecOutcome.circuitOpen, b, 0)
  | some b1 =>
    match op with
    | .ok a => (ExecOutcome.ok a, b1.onSuccess, 1)
    | .error e => (ExecOutcome.err e, b1.onFailure now, 1)

/-- Characterization of `CircuitBreaker.onFailure` with the post-increment
trip condition made explicit. -/
theorem CircuitBreaker.onFailure_eq (now : Int) (b : CircuitBreaker) :
    CircuitBreaker.onFailure now b =
      (if b.threshold <
            ((b.failures + 1 : Nat) : ℚ) / ((b.failures + 1 + b.successes : Nat) : ℚ) * 100
          ∧ 10 ≤ b.failures + 1 + b.successes then
        { b with failures := b.failures + 1
                 lastFailureTime := now
                 state := BreakerState.OPEN }
      else { b with failures := b.failures + 1, lastFailureTime := now }) := by
  have h0 : (0 : Nat) < b.failures + 1 + b.successes := by omega
  simp only [CircuitBreaker.onFailure, h0, if_true, if_pos h0]

/-- A HALF_OPEN breaker whose counters do not yet meet the trip condition:
used to refute the claim that a failed probe reopens the breaker
unconditionally. -/
def halfOpenLowSample : CircuitBreaker :=
  { failures := 0, successes := 0, lastFailureTime := 0,
    state := BreakerState.HALF_OPEN, threshold := 50, timeout := 60000 }

/-- Counterexample to C2 as stated: in HALF_OPEN with failure/success history
`0/0` and threshold 50, a failed probe leaves the breaker in HALF_OPEN (the
total sample `1` is below the minimum sample size 10), so the claimed
unconditional HALF_OPEN → OPEN transition does not happen. -/
theorem halfOpen_failed_probe_not_unconditionally_open :
    (CircuitBreaker.execute 1000 (Except.error () : Except Unit Unit)
        halfOpenLowSample).2.1.state ≠ BreakerState.OPEN := by
  have hgate : CircuitBreaker.gate 1000 halfOpenLowSample = some halfOpenLowSample := by
    simp [CircuitBreaker.gate, halfOpenLowSample]
  simp only [CircuitBreaker.execute, hgate, CircuitBreaker.onFailure_eq]
  rw [if_neg]
  · simp [halfOpenLowSample]
  · intro h
    have := h.2
    simp [halfOpenLowSample] at this

/-- C2 (amended). Whenever the breaker is HALF_OPEN and the probe fails, the
failure timestamp used as the opened-at time is reset to `now` and the failure
counter is incremented; the breaker returns to OPEN provided its counters
still satisfy the trip condition that opened it (error rate strictly above
`threshold` over at least 10 samples) — which holds for every HALF_OPEN state
reached from an OPEN one without an intervening `reset()` — but not for
arbitrary counter histories. -/
theorem halfOpen_failed_probe_reopens (b : CircuitBreaker) (now : Int)
    (hH : b.state = BreakerState.HALF_OPEN)
    (hrate : b.threshold < ((b.failures : ℚ) / ((b.failures + b.successes : Nat) : ℚ)) * 100)
    (hmin : 10 ≤ b.failures + b.successes) :
    CircuitBreaker.execute now (Except.error () : Except Unit Unit) b
      = (ExecOutcome.err (),
         { b with failures := b.failures + 1
                  lastFailureTime := now
                  state := BreakerState.OPEN }, 1) := by
  have htot : (0 : Nat) < b.failures + b.successes := by omega
  have d1 : (0 : ℚ) < ((b.failures + b.successes : Nat) : ℚ) := by exact_mod_cast htot
  have d2 : (0 : ℚ) < ((b.failures + 1 + b.successes : Nat) : ℚ) := by
    have h : (0 : Nat) < b.failures + 1 + b.successes := by omega
    exact_mod_cast h
  have hf_le : ((b.failures : ℚ) / ((b.failures + b.successes : Nat) : ℚ))
      ≤ (((b.failures + 1 : Nat) : ℚ) / ((b.failures + 1 + b.successes : Nat) : ℚ)) := by
    rw [div_le_div_iff₀ d1 d2]
    push_cast
    nlinarith [(by positivity : (0 : ℚ) ≤ (b.successes : ℚ)),
      (by positivity : (0 : ℚ) ≤ (b.failures : ℚ))]
  have hrate' : b.threshold <
      ((b.failures + 1 : Nat) : ℚ) / ((b.failures + 1 + b.successes : Nat) : ℚ) * 100 :=
    lt_of_lt_of_le hrate (mul_le_mul_of_nonneg_right hf_le (by norm_num))
  have hgate : CircuitBreaker.gate now b = some b := by
    simp [CircuitBreaker.gate, hH]
  have key := CircuitBreaker.onFailure_eq now b
  rw [if_pos ⟨hrate', by omega⟩] at key
  simp [CircuitBreaker.execute, hgate, key]

/-- Witness for C2 (amended): a HALF_OPEN breaker with history 10 failures /
0 successes and threshold 50 goes back to OPEN on a failed probe at time 70000
and records that time as the new failure timestamp. -/
theorem halfOpen_failed_probe_reopens_witness :
    CircuitBreaker.execute 70000 (Except.error () : Except Unit Unit)
        { failures := 10, successes := 0, lastFailureTime := 0,
          state := BreakerState.HALF_OPEN, threshold := 50, timeout := 60000 }
      = (ExecOutcome.err (),
         { failures := 11, successes := 0, lastFailureTime := 70000,
           state := BreakerState.OPEN, threshold := 50, timeout := 60000 }, 1) :=
  halfOpen_failed_probe_reopens
    { failures := 10, successes := 0, lastFailureTime := 0,
      state := BreakerState.HALF_OPEN, threshold := 50, timeout := 60000 }
    70000 rfl (by norm_num) (by norm_num)

/-- A HALF_OPEN breaker with a nonzero success counter, used to refute the
claim that a successful probe resets both counters. -/
def halfOpenWithSuccesses : CircuitBreaker :=
  { failures := 10, successes := 5, lastFailureTime := 0,
    state := BreakerState.HALF_OPEN, threshold := 50, timeout := 60000 }

/-- Counterexample to C3 as stated: a successful probe from HALF_OPEN with 5
prior successes leaves the success counter at 6 (it is incremented, not reset
to zero). -/
theorem halfOpen_success_does_not_reset_successes :
    (CircuitBreaker.execute 1000 (Except.ok () : Except Unit Unit)
        halfOpenWithSuccesses).2.1.successes ≠ 0 := by
  decide

/-- C3 (amended). Whenever the breaker is HALF_OPEN and the probe succeeds,
the breaker transitions to CLOSED and the failure counter is reset to zero,
but the success counter is incremented rather than reset. -/
theorem halfOpen_success_closes (b : CircuitBreaker) (now : Int)
    (hH : b.state = BreakerState.HALF_OPEN) :
    CircuitBreaker.execute now (Except.ok () : Except Unit Unit) b
      = (ExecOutcome.ok (),
         { b with failures := 0
                  successes := b.successes + 1
                  state := BreakerState.CLOSED }, 1) := by
  have hgate : CircuitBreaker.gate now b = some b := by
    simp [CircuitBreaker.gate, hH]
  simp [CircuitBreaker.execute, hgate, CircuitBreaker.onSuccess, hH]

/-- Witness for C3 (amended): a successful probe on `halfOpenWithSuccesses`
returns CLOSED with failures 0 and successes 6. -/
theorem halfOpen_success_closes_witness :
    CircuitBreaker.execute 1000 (Except.ok () : Except Unit Unit) halfOpenWithSuccesses
      = (ExecOutcome.ok (),
         { failures := 0, successes := 6, lastFailureTime := 0,
           state := BreakerState.CLOSED, threshold := 50, timeout := 60000 }, 1) :=
  halfOpen_success_closes halfOpenWithSuccesses 1000 rfl

/-- C4. While the breaker is OPEN and strictly less than `resetTimeout` has
elapsed since the failure that opened it, `execute` rejects with the
breaker-open outcome, leaves the state untouched, and never invokes the
wrapped operation; once strictly more than `resetTimeout` has elapsed, the
next `execute` call admits the operation as a probe in the HALF_OPEN state
(exactly one invocation). -/
theorem open_breaker_rejects_then_probes {ε α : Type} (b : CircuitBreaker)
    (now : Int) (op : Except ε α) (hO : b.state = BreakerState.OPEN) :
    (now - b.lastFailureTime < b.timeout →
      CircuitBreaker.execute now op b = (ExecOutcome.circuitOpen, b, 0)) ∧
    (b.timeout < now - b.lastFailureTime →
      CircuitBreaker.gate now b = some { b with state := BreakerState.HALF_OPEN } ∧
      (CircuitBreaker.execute now op b).2.2 = 1) := by
  constructor
  · intro hlt
    have hgate : CircuitBreaker.gate now b = none := by
      simp [CircuitBreaker.gate, hO]
      omega
    simp [CircuitBreaker.execute, hgate]
  · intro hgt
    have hgate : CircuitBreaker.gate now b
        = some { b with state := BreakerState.HALF_OPEN } := by
      simp [CircuitBreaker.gate, hO, hgt]
    refine ⟨hgate, ?_⟩
    cases op <;> simp [CircuitBreaker.execute, hgate]

/-- Witness for C4: an OPEN breaker (opened at time 0, timeout 60000) rejects
at time 59999 without invoking the operation, and at time 60001 the gate
admits a HALF_OPEN probe with exactly one invocation. -/
theorem open_breaker_rejects_then_probes_witness :
    CircuitBreaker.execute 59999 (Except.ok () : Except Unit Unit)
        { failures := 10, successes := 0, lastFailureTime := 0,
          state := BreakerState.OPEN, threshold := 50, timeout := 60000 }
      = (ExecOutcome.circuitOpen,
         { failures := 10, successes := 0, lastFailureTime := 0,
           state := BreakerState.OPEN, threshold := 50, timeout := 60000 }, 0) ∧
    (CircuitBreaker.execute 60001 (Except.ok () : Except Unit Unit)
        { failures := 10, successes := 0, lastFailureTime := 0,
          state := BreakerState.OPEN, threshold := 50, timeout := 60000 }).2.2 = 1 :=
  ⟨(open_breaker_rejects_then_probes
      { failures := 10, successes := 0, lastFailureTime := 0,
        state := BreakerState.OPEN, threshold := 50, timeout := 60000 }
      59999 (Except.ok ()) rfl).1 (by norm_num),
   ((open_breaker_rejects_then_probes
      { failures := 10, successes := 0, lastFailureTime := 0,
        state := BreakerState.OPEN, threshold := 50, timeout := 60000 }
      60001 (Except.ok ()) rfl).2 (by norm_num)).2⟩

/-- A fresh breaker as constructed in the scraper: threshold 50 (scenario
value), timeout 60000, CLOSED, zero counters. -/
def initialBreaker : CircuitBreaker :=
  { failures := 0, successes := 0, lastFailureTime := 0,
    state := BreakerState.CLOSED, threshold := 50, timeout := 60000 }

/-- From a CLOSED breaker one failing `execute` call invokes the operation
once and applies `onFailure`. -/
theorem closed_failure_step (b : CircuitBreaker) (now : Int)
    (hC : b.state = BreakerState.CLOSED) :
    CircuitBreaker.execute now (Except.error () : Except Unit Unit) b
      = (ExecOutcome.err (), CircuitBreaker.onFailure now b, 1) := by
  have hgate : CircuitBreaker.gate now b = some b := by
    simp [CircuitBreaker.gate, hC]
  simp [CircuitBreaker.execute, hgate]

/-- The breaker state after `n` consecutive failing `execute` calls performed
at times `0, 1, ..., n-1`. -/
def failsTimes : Nat → CircuitBreaker → CircuitBreaker
  | 0, b => b
  | n + 1, b =>
    (CircuitBreaker.execute (n : Int) (Except.error () : Except Unit Unit)
      (failsTimes n b)).2.1

theorem failsTimes_succ (n : Nat) (b : CircuitBreaker) :
    failsTimes (n + 1) b
      = (CircuitBreaker.execute (n : Int) (Except.error () : Except Unit Unit)
          (failsTimes n b)).2.1 := rfl

theorem failsTimes_le9 : ∀ n, n ≤ 9 → failsTimes n initialBreaker
    = { failures := n, successes := 0
        lastFailureTime := if n = 0 then 0 else (n : Int) - 1
        state := BreakerState.CLOSED, threshold := 50, timeout := 60000 } := by
  intro n
  induction n with
  | zero => intro _; simp [failsTimes, initialBreaker]
  | succ m ih =>
    intro hm
    have ihx := ih (by omega)
    rw [failsTimes_succ, ihx, closed_failure_step _ _ rfl]
    simp only [CircuitBreaker.onFailure_eq]
    rw [if_neg]
    · simp
    · intro h
      have h2 := h.2
      simp at h2
      omega

/-- After exactly 10 consecutive failures from a fresh breaker with threshold
50, the breaker is OPEN (the 10th failure trips it: error rate 100 > 50 with
the minimum sample of 10 reached). -/
theorem failsTimes_ten : failsTimes 10 initialBreaker
    = { failures := 10, successes := 0, lastFailureTime := 9
        state := BreakerState.OPEN, threshold := 50, timeout := 60000 } := by
  have e : (10 : Nat) = 9 + 1 := by norm_num
  rw [e, failsTimes_succ, failsTimes_le9 9 (by norm_num), closed_failure_step _ _ rfl]
  simp only [CircuitBreaker.onFailure_eq]
  rw [if_pos]
  · simp
  · constructor
    · push_cast
      norm_num
    · simp

/-- C5. From CLOSED, a failing `execute` call leaves the breaker OPEN exactly
when the post-increment error rate `(failures / (failures + successes)) * 100`
strictly exceeds the threshold and the total sample reaches the minimum sample
size 10; concretely, with threshold 50 and no successes, the 10th consecutive
failure opens the breaker and an 11th call (1ms later) is rejected with the
breaker-open outcome and zero invocations of the operation. -/
theorem closed_breaker_opens_iff (b : CircuitBreaker) (now : Int)
    (hC : b.state = BreakerState.CLOSED) :
    ((CircuitBreaker.execute now (Except.error () : Except Unit Unit) b).2.1.state
        = BreakerState.OPEN ↔
      b.threshold <
          ((b.failures + 1 : Nat) : ℚ) / ((b.failures + 1 + b.successes : Nat) : ℚ) * 100
        ∧ 10 ≤ b.failures + 1 + b.successes) ∧
    (failsTimes 10 initialBreaker).state = BreakerState.OPEN ∧
    CircuitBreaker.execute 10 (Except.error () : Except Unit Unit)
        (failsTimes 10 initialBreaker)
      = (ExecOutcome.circuitOpen, failsTimes 10 initialBreaker, 0) := by
  refine ⟨?_, ?_, ?_⟩
  · rw [closed_failure_step b now hC]
    simp only [CircuitBreaker.onFailure_eq]
    by_cases hcond : b.threshold <
        ((b.failures + 1 : Nat) : ℚ) / ((b.failures + 1 + b.successes : Nat) : ℚ) * 100
      ∧ 10 ≤ b.failures + 1 + b.successes
    · rw [if_pos hcond]
      simpa using hcond
    · rw [if_neg hcond]
      simp only [hC]
      constructor
      · intro h
        exact absurd h (by simp)
      · intro h
        exact absurd h hcond
  · rw [failsTimes_ten]
  · rw [failsTimes_ten]
    have hgate : CircuitBreaker.gate 10
        { failures := 10, successes := 0, lastFailureTime := 9
          state := BreakerState.OPEN, threshold := 50, timeout := 60000 } = none := by
      rw [CircuitBreaker.gate, if_pos rfl, if_neg (by norm_num)]
    simp [CircuitBreaker.execute, hgate]

/-- Witness for C5: a CLOSED breaker with history 9 failures / 0 successes and
threshold 50 opens on the next failure, and one with 9 failures / 91 successes
does not (rate 10 percent is below the threshold). -/
theorem closed_breaker_opens_iff_witness :
    (CircuitBreaker.execute 99 (Except.error () : Except Unit Unit)
        { failures := 9, successes := 0, lastFailureTime := 8,
          state := BreakerState.CLOSED, threshold := 50, timeout := 60000 }).2.1.state
      = BreakerState.OPEN ∧
    (CircuitBreaker.execute 99 (Except.error () : Except Unit Unit)
        { failures := 9, successes := 91, lastFailureTime := 8,
          state := BreakerState.CLOSED, threshold := 50, timeout := 60000 }).2.1.state
      ≠ BreakerState.OPEN := by
  constructor
  · exact (closed_breaker_opens_iff
      { failures := 9, successes := 0, lastFailureTime := 8,
        state := BreakerState.CLOSED, threshold := 50, timeout := 60000 }
      99 rfl).1.mpr ⟨by push_cast; norm_num, by simp⟩
  · intro h
    have := (closed_breaker_opens_iff
      { failures := 9, successes := 91, lastFailureTime := 8,
        state := BreakerState.CLOSED, threshold := 50, timeout := 60000 }
      99 rfl).1.mp h
    have h1 := this.1
    push_cast at h1
    norm_num at h1

/-- Embedding of `calculateBackoffDelay(attempt, baseDelayMs)`: the
exponential delay `baseDelayMs * 2^attempt` is capped at 30000ms first, then a
jitter of up to 30 percent of the capped value is added; `r` is the
`Math.random()` draw. -/
def calculateBackoffDelay (r : ℚ) (attempt : Nat) (baseDelayMs : ℚ) : ℚ :=
  let exponentialDelay := min (baseDelayMs * 2 ^ attempt) 30000
  exponentialDelay + exponentialDelay * (3 / 10) * r

/-- Embedding of the duration actually slept by `sleep(ms, jitter)`: the
jitter term `ms * jitter * (r - 0.5)` is symmetric around zero and the result
is floored at 100ms; `r` is the `Math.random()` draw, and `withRetry` calls
`sleep(delay)` with the default `jitter = 0.2`. -/
def sleepActualMs (r : ℚ) (ms : ℚ) (jitter : ℚ) : ℚ :=
  max 100 (ms + ms * jitter * (r - 1 / 2))

/-- Counterexample to C8 as stated: with `baseDelay = 1000` and attempt index
5 the computed delay (even with maximal jitter draw 0) is 30000, strictly
below the claimed lower bound `baseDelay * 2^5 = 32000` (the cap is applied
before the claimed interval); and for attempt index 0 the duration actually
slept can be 900ms, strictly below the un-jittered exponential value 1000
(`sleep` applies its own symmetric jitter). -/
theorem backoff_below_claimed_lower_bound :
    calculateBackoffDelay 0 5 1000 < 1000 * 2 ^ 5 ∧
    sleepActualMs 0 (calculateBackoffDelay 0 0 1000) (1 / 5) < 1000 * 2 ^ 0 := by
  constructor
  · have h : calculateBackoffDelay 0 5 1000 = 30000 := by
      rw [calculateBackoffDelay]
      norm_num
    rw [h]; norm_num
  · have h : calculateBackoffDelay 0 0 1000 = 1000 := by
      rw [calculateBackoffDelay]
      norm_num
    rw [h, sleepActualMs]
    rw [max_eq_right (by norm_num)]
    norm_num

/-- C8 (amended). For every attempt index `i` and jitter draws in `[0, 1]`,
the computed backoff delay lies in `[E, E * 1.3]` where
`E = min(baseDelay * 2^i, 30000)` is the capped exponential (so it is capped
above by `30000 * 1.3 = maxDelay * (1 + jitterFraction)`, and is at least
`baseDelay * 2^i` only while the cap does not bind); the jitter added by
`calculateBackoffDelay` itself is non-negative, but the `sleep` consuming the
delay applies a further symmetric jitter of up to 10 percent (floored at
100ms), so the duration actually slept lies in
`[max(100, 0.9 * delay), max(100, 1.1 * delay)]` and can fall below the
un-jittered exponential value. -/
theorem backoff_delay_bounds (r : ℚ) (hr0 : 0 ≤ r) (hr1 : r ≤ 1) (attempt : Nat)
    (base : ℚ) (hb : 0 ≤ base) (d r2 : ℚ) (hd : 0 ≤ d) (h20 : 0 ≤ r2) (h21 : r2 ≤ 1) :
    min (base * 2 ^ attempt) 30000 ≤ calculateBackoffDelay r attempt base ∧
    calculateBackoffDelay r attempt base ≤ min (base * 2 ^ attempt) 30000 * (13 / 10) ∧
    calculateBackoffDelay r attempt base ≤ 30000 * (13 / 10) ∧
    max 100 (d * (9 / 10)) ≤ sleepActualMs r2 d (1 / 5) ∧
    sleepActualMs r2 d (1 / 5) ≤ max 100 (d * (11 / 10)) := by
  have hE0 : (0 : ℚ) ≤ min (base * 2 ^ attempt) 30000 :=
    le_min (by positivity) (by norm_num)
  have hEcap : min (base * 2 ^ attempt) 30000 ≤ (30000 : ℚ) := min_le_right _ _
  refine ⟨?_, ?_, ?_, ?_, ?_⟩
  · rw [calculateBackoffDelay]
    nlinarith
  · rw [calculateBackoffDelay]
    nlinarith
  · rw [calculateBackoffDelay]
    nlinarith
  · rw [sleepActualMs]
    have hs : d * (9 / 10) ≤ d + d * (1 / 5) * (r2 - 1 / 2) := by nlinarith
    exact max_le_max (le_refl 100) hs
  · rw [sleepActualMs]
    have hs : d + d * (1 / 5) * (r2 - 1 / 2) ≤ d * (11 / 10) := by nlinarith
    exact max_le_max (le_refl 100) hs

/-- Witness for C8 (amended): attempt 5 with base 1000 and jitter draw 1 gives
delay 39000 = 30000 * 1.3, within the capped bounds, and sleeping 1000ms with
draw 1 gives 1100ms, within the sleep bounds. -/
theorem backoff_delay_bounds_witness :
    min ((1000 : ℚ) * 2 ^ 5) 30000 ≤ calculateBackoffDelay 1 5 1000 ∧
    calculateBackoffDelay 1 5 1000 ≤ 30000 * (13 / 10) ∧
    sleepActualMs 1 1000 (1 / 5) ≤ max 100 (1000 * (11 / 10)) := by
  have h := backoff_delay_bounds 1 (by norm_num) (by norm_num) 5 1000 (by norm_num)
    1000 1 (by norm_num) (by norm_num) (by norm_num)
  exact ⟨h.1, h.2.2.1, h.2.2.2.2⟩

/-- Rounding to two decimal places, modelling `Number(x.toFixed(2))`. The
round-half direction of `toFixed` on an IEEE double and of `round` on an exact
rational differ only at exact ties or float artifacts, which do not occur in
any fact proved here. -/
def round2 (q : ℚ) : ℚ := ((round (q * 100) : ℤ) : ℚ) / 100

/-- The `MetricsData` record maintained by `MetricsCollector`: `errorsByStatus`
is modelled as an association list from status code to count; `lastResetAt`
(an ISO timestamp string in the source) is modelled as an opaque integer. -/
structure MetricsData where
  totalRequests : Nat
  successfulRequests : Nat
  failedRequests : Nat
  averageLatencyMs : ℚ
  p95LatencyMs : ℚ
  errorsByStatus : List (Nat × Nat)
  circuitBreakerTrips : Nat
  lastResetAt : Int
deriving DecidableEq, Repr

/-- State of a `MetricsCollector`: the published `MetricsData` plus the
private bounded buffer of latency samples (`MAX_LATENCY_SAMPLES = 1000`). -/
structure MetricsCollector where
  metrics : MetricsData
  latencies : List ℚ
deriving DecidableEq, Repr

/-- The average computed by `updateLatencyMetrics`: the mean of the buffer,
rounded to two decimals by `Number((...).toFixed(2))`. -/
def avgOf (ls : List ℚ) : ℚ := round2 (ls.sum / (ls.length : ℚ))

/-- The p95 computed by `updateLatencyMetrics`: the ascending-sorted buffer
indexed at `Math.floor(length * 0.95)`, with the `|| 0` fallback (an
out-of-range index yields 0; a stored 0 sample also yields 0, the same
value). `insertionSort` stands in for the source's numeric `sort`: both
produce the unique ascending reordering of the buffer. -/
def p95Of (ls : List ℚ) : ℚ :=
  (ls.insertionSort (· ≤ ·)).getD (ls.length * 95 / 100) 0

/-- Embedding of `updateLatencyMetrics`: a no-op on an empty buffer, otherwise
recomputes the average and p95 fields from the buffer. -/
def updateLatencyMetrics (mc : MetricsCollector) : MetricsCollector :=
  if mc.latencies = [] then mc
  else
    { mc with metrics := { mc.metrics with averageLatencyMs := avgOf mc.latencies
                                           p95LatencyMs := p95Of mc.latencies } }

/-- Embedding of `recordLatency`: push the sample, evict the oldest sample
once the buffer exceeds 1000 entries, then update the derived latency
metrics. -/
def recordLatency (l : ℚ) (mc : MetricsCollector) : MetricsCollector :=
  let ls0 := mc.latencies ++ [l]
  let ls := if 1000 < ls0.length then ls0.tail else ls0
  updateLatencyMetrics { mc with latencies := ls }

/-- Embedding of `MetricsCollector.recordSuccess(latencyMs)`. -/
def MetricsCollector.recordSuccess (l : ℚ) (mc : MetricsCollector) : MetricsCollector :=
  recordLatency l
    { mc with metrics :=
        { mc.metrics with totalRequests := mc.metrics.totalRequests + 1
                          successfulRequests := mc.metrics.successfulRequests + 1 } }

/-- Incrementing one status key of the `errorsByStatus` association list
(`errorsByStatus[key] = (errorsByStatus[key] || 0) + 1`). -/
def bumpStatus (s : Nat) : List (Nat × Nat) → List (Nat × Nat)
  | [] => [(s, 1)]
  | (k, v) :: rest => if k = s then (k, v + 1) :: rest else (k, v) :: bumpStatus s rest

/-- Embedding of `MetricsCollector.recordFailure(latencyMs, statusCode?)`:
the `if (statusCode)` truthiness guard means both an absent status and a `0`
status skip the `errorsByStatus` update. -/
def MetricsCollector.recordFailure (l : ℚ) (status : Option Nat)
    (mc : MetricsCollector) : MetricsCollector :=
  let mc1 :=
    { mc with metrics :=
        { mc.metrics with totalRequests := mc.metrics.totalRequests + 1
                          failedRequests := mc.metrics.failedRequests + 1 } }
  let mc2 := recordLatency l mc1
  match status with
  | some s =>
    if s = 0 then mc2
    else
      { mc2 with metrics :=
          { mc2.metrics with errorsByStatus := bumpStatus s mc2.metrics.errorsByStatus } }
  | none => mc2

/-- Embedding of `MetricsCollector.recordCircuitBreakerTrip()`. -/
def MetricsCollector.recordCircuitBreakerTrip (mc : MetricsCollector) : MetricsCollector :=
  { mc with metrics :=
      { mc.metrics with circuitBreakerTrips := mc.metrics.circuitBreakerTrips + 1 } }

/-- Embedding of `MetricsCollector.getSuccessRate()`: 100 for an empty
history, otherwise the success percentage rounded to two decimals by
`Number((...).toFixed(2))`. -/
def MetricsCollector.getSuccessRate (mc : MetricsCollector) : ℚ :=
  if mc.metrics.totalRequests = 0 then 100
  else
    round2 (((mc.metrics.successfulRequests : ℚ) / (mc.metrics.totalRequests : ℚ)) * 100)

/-- Result of `checkSLA`: the two boolean verdicts plus the two numbers the
source interpolates into its human-readable `summary` string. -/
structure SLAResult where
  avgLatencyOk : Bool
  errorRateOk : Bool
  summaryAvgLatencyMs : ℚ
  summarySuccessRate : ℚ
deriving DecidableEq, Repr

/-- Embedding of `MetricsCollector.checkSLA()`: latency budget 6000ms and
success-rate floor 95 percent, both compared against the stored average and
`getSuccessRate()`. -/
def MetricsCollector.checkSLA (mc : MetricsCollector) : SLAResult :=
  let successRate := mc.getSuccessRate
  { avgLatencyOk := decide (mc.metrics.averageLatencyMs ≤ 6000)
    errorRateOk := decide (95 ≤ successRate)
    summaryAvgLatencyMs := mc.metrics.averageLatencyMs
    summarySuccessRate := successRate }

/-- A freshly constructed collector (all counters zero, empty buffer). -/
def freshCollector : MetricsCollector :=
  { metrics := { totalRequests := 0, successfulRequests := 0, failedRequests := 0
                 averageLatencyMs := 0, p95LatencyMs := 0, errorsByStatus := []
                 circuitBreakerTrips := 0, lastResetAt := 0 }
    latencies := [] }

theorem recordLatency_fields (l : ℚ) (mc : MetricsCollector) :
    (recordLatency l mc).metrics.totalRequests = mc.metrics.totalRequests ∧
    (recordLatency l mc).metrics.successfulRequests = mc.metrics.successfulRequests ∧
    (recordLatency l mc).metrics.failedRequests = mc.metrics.failedRequests ∧
    (recordLatency l mc).metrics.errorsByStatus = mc.metrics.errorsByStatus ∧
    (recordLatency l mc).metrics.circuitBreakerTrips = mc.metrics.circuitBreakerTrips ∧
    (recordLatency l mc).metrics.lastResetAt = mc.metrics.lastResetAt ∧
    (recordLatency l mc).latencies =
      (if 1000 < (mc.latencies ++ [l]).length then (mc.latencies ++ [l]).tail
       else mc.latencies ++ [l]) ∧
    (recordLatency l mc).metrics.averageLatencyMs = avgOf (recordLatency l mc).latencies ∧
    (recordLatency l mc).metrics.p95LatencyMs = p95Of (recordLatency l mc).latencies := by
  have hne : (if 1000 < (mc.latencies ++ [l]).length then (mc.latencies ++ [l]).tail
      else mc.latencies ++ [l]) ≠ [] := by
    split
    · have hlen : 1000 ≤ (mc.latencies ++ [l]).tail.length := by
        rw [List.length_tail]
        omega
      intro hemp
      rw [hemp] at hlen
      simp at hlen
    · simp
  simp only [recordLatency, updateLatencyMetrics]
  rw [if_neg hne]
  simp

theorem recordFailure_none_fields (l : ℚ) (mc : MetricsCollector) :
    (MetricsCollector.recordFailure l none mc).metrics.totalRequests
        = mc.metrics.totalRequests + 1 ∧
    (MetricsCollector.recordFailure l none mc).metrics.failedRequests
        = mc.metrics.failedRequests + 1 ∧
    (MetricsCollector.recordFailure l none mc).metrics.successfulRequests
        = mc.metrics.successfulRequests ∧
    (MetricsCollector.recordFailure l none mc).metrics.errorsByStatus
        = mc.metrics.errorsByStatus ∧
    (MetricsCollector.recordFailure l none mc).metrics.circuitBreakerTrips
        = mc.metrics.circuitBreakerTrips ∧
    (MetricsCollector.recordFailure l none mc).metrics.lastResetAt
        = mc.metrics.lastResetAt ∧
    (MetricsCollector.recordFailure l none mc).latencies =
      (if 1000 < (mc.latencies ++ [l]).length then (mc.latencies ++ [l]).tail
       else mc.latencies ++ [l]) ∧
    (MetricsCollector.recordFailure l none mc).metrics.averageLatencyMs
        = avgOf (MetricsCollector.recordFailure l none mc).latencies ∧
    (MetricsCollector.recordFailure l none mc).metrics.p95LatencyMs
        = p95Of (MetricsCollector.recordFailure l none mc).latencies := by
  have h := recordLatency_fields l
    { mc with metrics :=
        { mc.metrics with totalRequests := mc.metrics.totalRequests + 1
                          failedRequests := mc.metrics.failedRequests + 1 } }
  simp only [MetricsCollector.recordFailure]
  simp only at h
  exact ⟨h.1, h.2.2.1, h.2.1, h.2.2.2.1, h.2.2.2.2.1, h.2.2.2.2.2.1,
    h.2.2.2.2.2.2.1, h.2.2.2.2.2.2.2.1, h.2.2.2.2.2.2.2.2⟩

/-- C10. A call to `recordFailure` with no status code increments
`totalRequests` and `failedRequests` by one, appends the latency sample to
the buffer (evicting the oldest sample past 1000 entries), recomputes the two
derived latency fields from the resulting buffer, and leaves `errorsByStatus`,
`successfulRequests`, `circuitBreakerTrips` and `lastResetAt` exactly
unchanged. -/
theorem recordFailure_no_status_frame (l : ℚ) (mc : MetricsCollector) :
    (MetricsCollector.recordFailure l none mc).metrics.totalRequests
        = mc.metrics.totalRequests + 1 ∧
    (MetricsCollector.recordFailure l none mc).metrics.failedRequests
        = mc.metrics.failedRequests + 1 ∧
    (MetricsCollector.recordFailure l none mc).metrics.successfulRequests
        = mc.metrics.successfulRequests ∧
    (MetricsCollector.recordFailure l none mc).metrics.errorsByStatus
        = mc.metrics.errorsByStatus ∧
    (MetricsCollector.recordFailure l none mc).metrics.circuitBreakerTrips
        = mc.metrics.circuitBreakerTrips ∧
    (MetricsCollector.recordFailure l none mc).metrics.lastResetAt
        = mc.metrics.lastResetAt ∧
    (MetricsCollector.recordFailure l none mc).latencies =
      (if 1000 < (mc.latencies ++ [l]).length then (mc.latencies ++ [l]).tail
       else mc.latencies ++ [l]) ∧
    (MetricsCollector.recordFailure l none mc).metrics.averageLatencyMs
        = avgOf (MetricsCollector.recordFailure l none mc).latencies ∧
    (MetricsCollector.recordFailure l none mc).metrics.p95LatencyMs
        = p95Of (MetricsCollector.recordFailure l none mc).latencies :=
  recordFailure_none_fields l mc

theorem recordSuccess_counters (l : ℚ) (mc : MetricsCollector) :
    (MetricsCollector.recordSuccess l mc).metrics.totalRequests
        = mc.metrics.totalRequests + 1 ∧
    (MetricsCollector.recordSuccess l mc).metrics.successfulRequests
        = mc.metrics.successfulRequests + 1 ∧
    (MetricsCollector.recordSuccess l mc).metrics.failedRequests
        = mc.metrics.failedRequests := by
  have h := recordLatency_fields l
    { mc with metrics :=
        { mc.metrics with totalRequests := mc.metrics.totalRequests + 1
                          successfulRequests := mc.metrics.successfulRequests + 1 } }
  simp only [MetricsCollector.recordSuccess]
  simp only at h
  exact ⟨h.1, h.2.1, h.2.2.1⟩

/-- One success then two no-status failures recorded on a fresh collector:
1 success out of 3 requests. -/
def oneOfThreeCollector : MetricsCollector :=
  MetricsCollector.recordFailure 0 none
    (MetricsCollector.recordFailure 0 none
      (MetricsCollector.recordSuccess 0 freshCollector))

theorem oneOfThreeCollector_counters :
    oneOfThreeCollector.metrics.totalRequests = 3 ∧
    oneOfThreeCollector.metrics.successfulRequests = 1 := by
  have h1 := recordSuccess_counters 0 freshCollector
  have h2 := recordFailure_none_fields 0 (MetricsCollector.recordSuccess 0 freshCollector)
  have h3 := recordFailure_none_fields 0
    (MetricsCollector.recordFailure 0 none (MetricsCollector.recordSuccess 0 freshCollector))
  constructor
  · rw [oneOfThreeCollector, h3.1, h2.1, h1.1]
    rfl
  · rw [oneOfThreeCollector, h3.2.2.1, h2.2.2.1, h1.2.1]
    rfl

/-- Counterexample to C9 as stated: after one success and two failures the
success rate used by `checkSLA` is `round2(100/3) = 33.33`, not
`successfulRequests / totalRequests * 100 = 100/3 = 33.333...` — the source
rounds the rate to two decimal places via `toFixed(2)` before using it. -/
theorem sla_success_rate_not_exact :
    oneOfThreeCollector.metrics.totalRequests = 3 ∧
    oneOfThreeCollector.metrics.successfulRequests = 1 ∧
    (MetricsCollector.checkSLA oneOfThreeCollector).summarySuccessRate
      ≠ ((oneOfThreeCollector.metrics.successfulRequests : ℚ)
          / (oneOfThreeCollector.metrics.totalRequests : ℚ)) * 100 := by
  obtain ⟨ht, hs⟩ := oneOfThreeCollector_counters
  refine ⟨ht, hs, ?_⟩
  rw [MetricsCollector.checkSLA]
  simp only [MetricsCollector.getSuccessRate, ht, hs]
  norm_num [round2, round_eq]

/-- C9 (amended). The success rate used by `checkSLA` (the value compared
against the 95 percent floor and interpolated into the summary) is
`getSuccessRate()`: it equals 100 when `totalRequests = 0`, and otherwise
equals `successfulRequests / totalRequests * 100` rounded to two decimal
places by `Number((...).toFixed(2))`. -/
theorem checkSLA_uses_getSuccessRate (mc : MetricsCollector) :
    (MetricsCollector.checkSLA mc).summarySuccessRate
        = MetricsCollector.getSuccessRate mc ∧
    (MetricsCollector.checkSLA mc).errorRateOk
        = decide (95 ≤ MetricsCollector.getSuccessRate mc) ∧
    (mc.metrics.totalRequests = 0 → MetricsCollector.getSuccessRate mc = 100) ∧
    (mc.metrics.totalRequests ≠ 0 → MetricsCollector.getSuccessRate mc
        = round2 (((mc.metrics.successfulRequests : ℚ)
            / (mc.metrics.totalRequests : ℚ)) * 100)) := by
  refine ⟨rfl, rfl, ?_, ?_⟩
  · intro h
    rw [MetricsCollector.getSuccessRate, if_pos h]
  · intro h
    rw [MetricsCollector.getSuccessRate, if_neg h]

/-- Witness for C9 (amended): a fresh collector reports a success rate of
exactly 100. -/
theorem checkSLA_uses_getSuccessRate_witness :
    MetricsCollector.getSuccessRate freshCollector = 100 :=
  (checkSLA_uses_getSuccessRate freshCollector).2.2.1 rfl

/-- The metrics recording performed inside `scrapeFn` across `n` invocations:
each successful invocation records a success with its latency, each failing
invocation records a failure with the original error's status. (The error
`scrapeFn` rethrows to `withRetry` is a fresh `Error` carrying only a message;
here both views share the same error sequence, which only matters for the
retry decision, not for this recording.) -/
def recordInvocations (res : Nat → Except RetryError Unit) (lat : Nat → ℚ)
    (n : Nat) (mc : MetricsCollector) : MetricsCollector :=
  (List.range n).foldl
    (fun acc i =>
      match res i with
      | .ok _ => MetricsCollector.recordSuccess (lat i) acc
      | .error e => MetricsCollector.recordFailure (lat i) e.status acc) mc

/-- Embedding of the resilience skeleton of `fetchPagedCompositeCards`: the
circuit breaker wraps the retry orchestrator, which invokes `scrapeFn`
(outcome of invocation `i` is `res i`, its latency `lat i`); every invocation
records its own success/failure in the metrics collector, and the final catch
block calls `recordCircuitBreakerTrip()` exactly when the propagated error
message is the breaker-open rejection (the only error whose message contains
that marker). Returns the outcome, the breaker state, the metrics state, and
the number of `scrapeFn` invocations (`attempts`). -/
def fetchPagedCompositeCards (now : Int) (maxRetries : Nat)
    (res : Nat → Except RetryError Unit) (lat : Nat → ℚ)
    (b : CircuitBreaker) (mc : MetricsCollector) :
    ExecOutcome RetryError Unit × CircuitBreaker × MetricsCollector × Nat :=
  match CircuitBreaker.gate now b with
  | none => (ExecOutcome.circuitOpen, b, mc.recordCircuitBreakerTrip, 0)
  | some b1 =>
    let r := withRetry res maxRetries (defaultRetryDecision maxRetries)
    let mc1 := recordInvocations res lat r.2 mc
    match r.1 with
    | .ok a => (ExecOutcome.ok a, b1.onSuccess, mc1, r.2)
    | .error e => (ExecOutcome.err e, b1.onFailure now, mc1, r.2)

/-- An OPEN breaker whose reset timeout has not elapsed at time 5. -/
def openBreakerRecent : CircuitBreaker :=
  { failures := 10, successes := 0, lastFailureTime := 0,
    state := BreakerState.OPEN, threshold := 50, timeout := 60000 }

/-- Counterexample to C7 as stated: when the breaker rejects the logical
request, the outcome is the breaker-open rejection with zero attempts, but no
metrics failure is recorded — `failedRequests` and `totalRequests` stay 0 on a
fresh collector (`recordFailure` runs only inside `scrapeFn`, which never
executes on this path; only `recordCircuitBreakerTrip` runs). -/
theorem fetch_rejection_records_no_metrics_failure :
    (fetchPagedCompositeCards 5 3 (fun _ => Except.error ⟨some 500⟩) (fun _ => 0)
        openBreakerRecent freshCollector).1 = ExecOutcome.circuitOpen ∧
    (fetchPagedCompositeCards 5 3 (fun _ => Except.error ⟨some 500⟩) (fun _ => 0)
        openBreakerRecent freshCollector).2.2.1.metrics.failedRequests = 0 ∧
    (fetchPagedCompositeCards 5 3 (fun _ => Except.error ⟨some 500⟩) (fun _ => 0)
        openBreakerRecent freshCollector).2.2.1.metrics.totalRequests = 0 := by
  have h1 : openBreakerRecent.state = BreakerState.OPEN := rfl
  have hgate : CircuitBreaker.gate 5 openBreakerRecent = none := by
    rw [CircuitBreaker.gate, if_pos h1, if_neg (by norm_num [openBreakerRecent])]
  simp [fetchPagedCompositeCards, hgate, MetricsCollector.recordCircuitBreakerTrip,
    freshCollector]

/-- C7 (amended). If the circuit breaker rejects the logical request because
it is OPEN and the reset timeout has not elapsed, `fetchPagedCompositeCards`
records a circuit-breaker trip (the trip counter is incremented), performs
zero attempts of the single-attempt operation (the retry orchestrator is
never entered), and leaves the breaker untouched; contrary to the claim, the
rejection is not counted as a metrics failure — the failure and total request
counters are unchanged. -/
theorem fetch_circuit_open_path (now : Int) (maxRetries : Nat)
    (res : Nat → Except RetryError Unit) (lat : Nat → ℚ)
    (b : CircuitBreaker) (mc : MetricsCollector)
    (hO : b.state = BreakerState.OPEN)
    (ht : now - b.lastFailureTime ≤ b.timeout) :
    fetchPagedCompositeCards now maxRetries res lat b mc
      = (ExecOutcome.circuitOpen, b, mc.recordCircuitBreakerTrip, 0) ∧
    mc.recordCircuitBreakerTrip.metrics.circuitBreakerTrips
      = mc.metrics.circuitBreakerTrips + 1 ∧
    mc.recordCircuitBreakerTrip.metrics.failedRequests = mc.metrics.failedRequests ∧
    mc.recordCircuitBreakerTrip.metrics.totalRequests = mc.metrics.totalRequests := by
  have hgate : CircuitBreaker.gate now b = none := by
    rw [CircuitBreaker.gate, if_pos hO, if_neg (by omega)]
  refine ⟨?_, rfl, rfl, rfl⟩
  simp [fetchPagedCompositeCards, hgate]

/-- Witness for C7 (amended): at time 5 an OPEN breaker (opened at 0, timeout
60000) makes `fetchPagedCompositeCards` reject with zero attempts and bump
only the trip counter of a fresh collector. -/
theorem fetch_circuit_open_path_witness :
    fetchPagedCompositeCards 5 3 (fun _ => Except.error ⟨some 500⟩) (fun _ => 0)
        openBreakerRecent freshCollector
      = (ExecOutcome.circuitOpen, openBreakerRecent,
         freshCollector.recordCircuitBreakerTrip, 0) ∧
    freshCollector.recordCircuitBreakerTrip.metrics.circuitBreakerTrips
      = freshCollector.metrics.circuitBreakerTrips + 1 :=
  ⟨(fetch_circuit_open_path 5 3 (fun _ => Except.error ⟨some 500⟩) (fun _ => 0)
      openBreakerRecent freshCollector rfl (by norm_num [openBreakerRecent])).1,
   (fetch_circuit_open_path 5 3 (fun _ => Except.error ⟨some 500⟩) (fun _ => 0)
      openBreakerRecent freshCollector rfl (by norm_num [openBreakerRecent])).2.1⟩
